import Mathlib

/-!
Verification of the churn-prediction notebook (`DEPI_MLOps.ipynb`).

The notebook is a straight-line script: load rows from SQL, drop rows with
missing values, derive a binary `Churn` label from `Customer_Status`,
one-hot encode a fixed list of categorical columns (dropping the first
category of each), drop the identifier columns, split 70/30 with a fixed
seed, fit a logistic regression (`max_iter=1000`), and score with
`accuracy_score`.  This file embeds those operations as executable Lean
functions over an explicit dataframe model and proves the stated
properties about them.
-/

/-- A cell of the tabular dataset: missing (`NULL`/`NaN`), a string, or a number. -/
inductive Cell where
  | null : Cell
  | str : String → Cell
  | num : Int → Cell
deriving DecidableEq, Repr

/-- An in-memory dataframe: a list of column names and rows of cells
(each row lists its cells in column order). -/
structure DataFrame where
  cols : List String
  rows : List (List Cell)
deriving DecidableEq, Repr

/-- The cell of row `r` at the column named `name`, given the frame's column
list (missing columns and short rows read as `null`). -/
def cellOf (cols : List String) (r : List Cell) (name : String) : Cell :=
  r.getD (cols.indexOf name) Cell.null

/-! Data loader (`pyodbc.connect` / `pd.read_sql` / `conn.close`).

The notebook's loader is straight-line Python with no `try`/`finally`:

    conn = pyodbc.connect(...)
    df = pd.read_sql(query, conn)
    conn.close()

We embed it as a function of the outcome of `pd.read_sql` (which either
returns a dataframe or raises).  A raised exception skips every following
statement, so `conn.close()` only runs on the fall-through path. -/

/-- State of the loader's Python process: whether the database connection is
still open, and the dataframe bound so far. -/
structure PyState where
  connOpen : Bool
  df : Option DataFrame
deriving DecidableEq, Repr

/-- The loader cell, step by step.  `readResult` is the outcome of
`pd.read_sql`; the returned `Option String` is the exception (if any) that
the cell terminates with. -/
def dataLoader (readResult : Except String DataFrame) : PyState × Option String :=
  -- conn = pyodbc.connect('DRIVER=...;SERVER=...;DATABASE=DEPI_DB;...')
  let s : PyState := { connOpen := true, df := none }
  -- df = pd.read_sql(query, conn) — may raise; a raise skips the rest of the cell
  match readResult with
  | Except.error e => (s, some e)
  | Except.ok d =>
    let s := { s with df := some d }
    -- conn.close()
    let s := { s with connOpen := false }
    (s, none)

/-! Preprocessing (`dropna` / label derivation / `get_dummies` / `drop`). -/

/-- Embeds `df.dropna()`: keep only the rows with no missing value in any column. -/
def dropna (df : DataFrame) : DataFrame :=
  { cols := df.cols, rows := df.rows.filter (fun r => decide (Cell.null ∉ r)) }

/-- Embeds `lambda x: 1 if x == 'Churned' else 0` applied to a `Customer_Status` cell. -/
def churnLabel (c : Cell) : Cell :=
  Cell.num (if c = Cell.str "Churned" then 1 else 0)

/-- One row after `df['Churn'] = df['Customer_Status'].apply(...)`: the
original cells with the derived label appended as the new last column. -/
def addChurnRow (cols : List String) (r : List Cell) : List Cell :=
  r ++ [churnLabel (cellOf cols r "Customer_Status")]

/-- Embeds `df['Churn'] = df['Customer_Status'].apply(...)`:
append the derived binary label column `Churn`. -/
def addChurn (df : DataFrame) : DataFrame :=
  { cols := df.cols ++ ["Churn"], rows := df.rows.map (addChurnRow df.cols) }

/-- The fixed list of categorical columns passed to `pd.get_dummies`. -/
def categoricalColumns : List String :=
  ["Gender", "City", "Offer", "Phone_Service", "Multiple_Lines", "Internet_Service",
   "Internet_Type", "Online_Security", "Online_Backup", "Device_Protection_Plan",
   "Premium_Tech_Support", "Streaming_TV", "Streaming_Movies", "Streaming_Music",
   "Unlimited_Data", "Contract", "Paperless_Billing", "Payment_Method",
   "Churn_Category", "Churn_Reason"]

/-- The identifier columns dropped after encoding:
`df.drop(columns=['Customer_ID', 'Customer_Status'])`. -/
def idColumnsDropped : List String := ["Customer_ID", "Customer_Status"]

/-- Lexicographic comparison of character lists (used to order category
strings the way pandas sorts the unique values of an object column). -/
def charsLe : List Char → List Char → Bool
  | [], _ => true
  | _ :: _, [] => false
  | a :: as, b :: bs => if a < b then true else if b < a then false else charsLe as bs

/-- String order used for the category sort. -/
def strLe (a b : String) : Bool := charsLe a.data b.data

/-- Insert a string into an already-sorted list. -/
def insertSorted (x : String) : List String → List String
  | [] => [x]
  | y :: ys => if strLe x y then x :: y :: ys else y :: insertSorted x ys

/-- Insertion sort on strings. -/
def sortStrings : List String → List String
  | [] => []
  | x :: xs => insertSorted x (sortStrings xs)

/-- The cells of column `c`, in row order. -/
def columnCells (df : DataFrame) (c : String) : List Cell :=
  df.rows.map (fun r => cellOf df.cols r c)

/-- The string values of column `c` (categorical columns hold strings). -/
def columnStrings (df : DataFrame) (c : String) : List String :=
  (columnCells df c).filterMap (fun cell =>
    match cell with
    | Cell.str s => some s
    | _ => none)

/-- The categories pandas derives for column `c`: the distinct values in
sorted order.  `get_dummies(..., drop_first=True)` emits one indicator
column per category except the first. -/
def sortedCategories (df : DataFrame) (c : String) : List String :=
  sortStrings (columnStrings df c).dedup

/-- The names of the indicator columns `get_dummies` generates for column
`c` under `drop_first=True`: `c_v` for every category `v` except the first. -/
def dummyColNames (df : DataFrame) (c : String) : List String :=
  (sortedCategories df c).tail.map (fun v => c ++ "_" ++ v)

/-- The indicator cells `get_dummies` generates for row `r` from column `c`:
1 when the row's value is the category, 0 otherwise (first category dropped). -/
def dummyCells (df : DataFrame) (c : String) (r : List Cell) : List Cell :=
  (sortedCategories df c).tail.map (fun v =>
    Cell.num (if cellOf df.cols r c = Cell.str v then 1 else 0))

/-- The cells of row `r` at the columns not in `names` (keeping column order). -/
def keepCells (cols : List String) (names : List String) (r : List Cell) : List Cell :=
  ((cols.zip r).filter (fun p => decide (p.1 ∉ names))).map Prod.snd

/-- Embeds `pd.get_dummies(df, columns=cats, drop_first=True)`: the non-encoded
columns keep their order, and the indicator columns are appended grouped by
source column in the order of `cats`. -/
def getDummies (df : DataFrame) (cats : List String) : DataFrame :=
  { cols := df.cols.filter (fun c => decide (c ∉ cats)) ++ cats.flatMap (dummyColNames df),
    rows := df.rows.map (fun r => keepCells df.cols cats r ++ cats.flatMap (fun c => dummyCells df c r)) }

/-- Embeds `df.drop(columns=names)`. -/
def dropCols (df : DataFrame) (names : List String) : DataFrame :=
  { cols := df.cols.filter (fun c => decide (c ∉ names)),
    rows := df.rows.map (keepCells df.cols names) }

/-- The whole preprocessing cell: `dropna`, label derivation, one-hot
encoding of the fixed categorical list, and dropping the identifier columns. -/
def preprocess (df : DataFrame) : DataFrame :=
  dropCols (getDummies (addChurn (dropna df)) categoricalColumns) idColumnsDropped

/-- Embeds `X = df.drop(columns=['Churn'])`: the predictor matrix. -/
def featuresX (df : DataFrame) : DataFrame :=
  dropCols (preprocess df) ["Churn"]

/-- Embeds `y = df['Churn']`: the label vector. -/
def labelsY (df : DataFrame) : List Cell :=
  (preprocess df).rows.map (fun r => cellOf (preprocess df).cols r "Churn")

/-! Train/test split (`train_test_split(X, y, test_size=0.3, random_state=42)`).

`random_state=42` fixes the pseudo-random shuffle; we model the shuffle as
an explicit permutation `perm` of the row indices (the list sklearn's RNG
produces for the given seed).  sklearn takes `ceil(0.3 * n)` rows for the
test partition — the first `testCount n` shuffled indices — and the rest
for training. -/

/-- Computes `ceil(0.3 * n)`: the size of the test partition for `test_size=0.3`. -/
def testCount (n : Nat) : Nat := (3 * n + 9) / 10

/-- The rows of `rows` selected by the index list `idxs`, in that order
(out-of-range indices select nothing). -/
def selectRows (rows : List α) (idxs : List Nat) : List α :=
  idxs.filterMap (fun i => rows.get? i)

/-- Embeds `train_test_split(rows, test_size=0.3)` with shuffle `perm`: the first
`testCount n` shuffled indices form the test partition, the rest the
training partition.  Returns `(train, test)`. -/
def train_test_split (rows : List α) (perm : List Nat) : List α × List α :=
  (selectRows rows (perm.drop (testCount rows.length)),
   selectRows rows (perm.take (testCount rows.length)))

/-! Model fitting and scoring. -/

/-- The iteration cap handed to `LogisticRegression(max_iter=1000)`. -/
def max_iter : Nat := 1000

/-- The solver's iteration loop: repeat `step` until `converged` or the
fuel runs out, returning the final iterate and the number of steps taken. -/
def solverLoop (step : α → α) (converged : α → Bool) : Nat → α → α × Nat
  | 0, w => (w, 0)
  | fuel + 1, w =>
    if converged w then (w, 0)
    else
      let out := solverLoop step converged fuel (step w)
      (out.1, out.2 + 1)

/-- Embeds `model.fit`: run the iterative convex-optimization solver from the
initial iterate `w0`, capped at `max_iter` iterations. -/
def fitSolver (step : α → α) (converged : α → Bool) (w0 : α) : α × Nat :=
  solverLoop step converged max_iter w0

/-- The number of position-wise matches between two label lists. -/
def matchCount [DecidableEq α] (yTrue yPred : List α) : Nat :=
  (yTrue.zip yPred).countP (fun p => decide (p.1 = p.2))

/-- Embeds `accuracy_score(y_true, y_pred)`: the fraction of positions where the
prediction equals the true label. -/
def accuracy_score [DecidableEq α] (yTrue yPred : List α) : ℚ :=
  (matchCount yTrue yPred : ℚ) / (yTrue.length : ℚ)

/-! Example dataframes used to instantiate the theorems below on concrete
inputs. -/

/-- A small concrete dataframe in the shape of the loaded table: the third
row has a missing `Gender`. -/
def exDf : DataFrame :=
  { cols := ["Customer_ID", "Gender", "Customer_Status", "Churn_Category", "Churn_Reason"],
    rows := [[Cell.str "001", Cell.str "Female", Cell.str "Churned", Cell.str "Competitor",
              Cell.str "Better offer"],
             [Cell.str "002", Cell.str "Male", Cell.str "Stayed", Cell.str "Price",
              Cell.str "Too expensive"],
             [Cell.str "003", Cell.null, Cell.str "Joined", Cell.str "Other",
              Cell.str "Moved"]] }

/-- The first row of `exDf`. -/
def exRow : List Cell :=
  [Cell.str "001", Cell.str "Female", Cell.str "Churned", Cell.str "Competitor",
   Cell.str "Better offer"]

/-- A single-row dataframe carrying every column the notebook touches
(all 20 categorical columns plus the two identifier columns), so the
Python code runs on it without a `KeyError`. -/
def exDfOneRow : DataFrame :=
  { cols := ["Customer_ID", "Gender", "City", "Offer", "Phone_Service", "Multiple_Lines",
             "Internet_Service", "Internet_Type", "Online_Security", "Online_Backup",
             "Device_Protection_Plan", "Premium_Tech_Support", "Streaming_TV",
             "Streaming_Movies", "Streaming_Music", "Unlimited_Data", "Contract",
             "Paperless_Billing", "Payment_Method", "Customer_Status", "Churn_Category",
             "Churn_Reason"],
    rows := [[Cell.str "0001", Cell.str "Female", Cell.str "Cairo", Cell.str "Offer A",
              Cell.str "Yes", Cell.str "No", Cell.str "Yes", Cell.str "DSL",
              Cell.str "No", Cell.str "No", Cell.str "No", Cell.str "No",
              Cell.str "No", Cell.str "No", Cell.str "No", Cell.str "Yes",
              Cell.str "Month-to-Month", Cell.str "Yes", Cell.str "Credit Card",
              Cell.str "Churned", Cell.str "Competitor", Cell.str "Better offer"]] }

/-! Helper lemmas about the sort, row selection and string names. -/

/-- Inserting into a list yields a permutation of consing. -/
theorem insertSorted_perm (x : String) (l : List String) :
    List.Perm (insertSorted x l) (x :: l) := by
  induction l with
  | nil => exact List.Perm.refl _
  | cons y ys ih =>
    rw [insertSorted]
    by_cases h : strLe x y = true
    · rw [if_pos h]
    · rw [if_neg h]
      exact (ih.cons y).trans (List.Perm.swap x y ys)

/-- The insertion sort permutes its input. -/
theorem sortStrings_perm (l : List String) : List.Perm (sortStrings l) l := by
  induction l with
  | nil => exact List.Perm.refl _
  | cons x xs ih =>
    rw [sortStrings]
    exact (insertSorted_perm x (sortStrings xs)).trans (ih.cons x)

/-- The category list of a column has no duplicates. -/
theorem sortedCategories_nodup (df : DataFrame) (c : String) :
    (sortedCategories df c).Nodup :=
  (sortStrings_perm (columnStrings df c).dedup).symm.nodup
    (List.nodup_dedup (columnStrings df c))

/-- Selecting by all indices in order recovers the row list. -/
theorem selectRows_range (rows : List α) :
    selectRows rows (List.range rows.length) = rows := by
  induction rows with
  | nil => rfl
  | cons a rs ih =>
    rw [selectRows, List.length_cons, List.range_succ_eq_map, List.filterMap_cons,
      List.filterMap_map]
    show a :: List.filterMap (fun i => rs.get? i) (List.range rs.length) = a :: rs
    rw [show List.filterMap (fun i => rs.get? i) (List.range rs.length) = rs from ih]

/-- Row lists of equal length select the same number of rows for any index
list. -/
theorem selectRows_length_congr (xs : List α) (ys : List β) (h : xs.length = ys.length)
    (l : List Nat) : (selectRows xs l).length = (selectRows ys l).length := by
  induction l with
  | nil => rfl
  | cons i t ih =>
    rw [selectRows, List.filterMap_cons, selectRows, List.filterMap_cons]
    by_cases hi : i < xs.length
    · rw [List.get?_eq_get hi, List.get?_eq_get (h ▸ hi)]
      simpa [selectRows] using ih
    · rw [List.get?_eq_none.mpr (by omega), List.get?_eq_none.mpr (by omega)]
      exact ih

/-- Selecting by in-range indices yields one row per index. -/
theorem selectRows_length_of_valid (rows : List α) (l : List Nat)
    (h : ∀ i ∈ l, i < rows.length) : (selectRows rows l).length = l.length := by
  induction l with
  | nil => rfl
  | cons i t ih =>
    rw [selectRows, List.filterMap_cons,
      List.get?_eq_get (h i (List.mem_cons_self i t))]
    have := ih (fun j hj => h j (List.mem_cons_of_mem i hj))
    simpa [selectRows] using this

/-- Appending to a fixed string on the left is injective. -/
theorem str_append_cancel (a v w : String) (h : a ++ v = a ++ w) : v = w := by
  have hd := congrArg String.data h
  rw [String.data_append, String.data_append] at hd
  exact String.ext (List.append_cancel_left hd)

/-- No `Churn_Category` indicator name collides with `Customer_ID`. -/
theorem churnCat_ne_customerID (v : String) :
    ("Churn_Category" ++ "_" ++ v) ≠ "Customer_ID" := by
  intro h
  have hlen := congrArg String.length h
  rw [String.length_append, String.length_append] at hlen
  have h1 : ("Churn_Category" : String).length = 14 := rfl
  have h2 : ("_" : String).length = 1 := rfl
  have h3 : ("Customer_ID" : String).length = 11 := rfl
  rw [h1, h2, h3] at hlen
  omega

/-- No `Churn_Category` indicator name collides with `Customer_Status`. -/
theorem churnCat_ne_customerStatus (v : String) :
    ("Churn_Category" ++ "_" ++ v) ≠ "Customer_Status" := by
  intro h
  have hlen := congrArg String.length h
  rw [String.length_append, String.length_append] at hlen
  have h1 : ("Churn_Category" : String).length = 14 := rfl
  have h2 : ("_" : String).length = 1 := rfl
  have h3 : ("Customer_Status" : String).length = 15 := rfl
  rw [h1, h2, h3] at hlen
  have hv0 : v.length = 0 := by omega
  have hv : v = "" := String.ext (List.length_eq_zero.mp hv0)
  rw [hv] at h
  exact absurd h (by decide)

/-- No `Churn_Category` indicator name collides with the label column `Churn`. -/
theorem churnCat_ne_churn (v : String) :
    ("Churn_Category" ++ "_" ++ v) ≠ "Churn" := by
  intro h
  have hlen := congrArg String.length h
  rw [String.length_append, String.length_append] at hlen
  have h1 : ("Churn_Category" : String).length = 14 := rfl
  have h2 : ("_" : String).length = 1 := rfl
  have h3 : ("Churn" : String).length = 5 := rfl
  rw [h1, h2, h3] at hlen
  omega

/-- No `Churn_Reason` indicator name collides with `Customer_ID`. -/
theorem churnReason_ne_customerID (v : String) :
    ("Churn_Reason" ++ "_" ++ v) ≠ "Customer_ID" := by
  intro h
  have hlen := congrArg String.length h
  rw [String.length_append, String.length_append] at hlen
  have h1 : ("Churn_Reason" : String).length = 12 := rfl
  have h2 : ("_" : String).length = 1 := rfl
  have h3 : ("Customer_ID" : String).length = 11 := rfl
  rw [h1, h2, h3] at hlen
  omega

/-- No `Churn_Reason` indicator name collides with `Customer_Status`. -/
theorem churnReason_ne_customerStatus (v : String) :
    ("Churn_Reason" ++ "_" ++ v) ≠ "Customer_Status" := by
  intro h
  have hd := congrArg String.data h
  rw [String.data_append, String.data_append] at hd
  have h1 : ("Churn_Reason" : String).data =
      ['C', 'h', 'u', 'r', 'n', '_', 'R', 'e', 'a', 's', 'o', 'n'] := rfl
  have h2 : ("_" : String).data = ['_'] := rfl
  have h3 : ("Customer_Status" : String).data =
      ['C', 'u', 's', 't', 'o', 'm', 'e', 'r', '_', 'S', 't', 'a', 't', 'u', 's'] := rfl
  rw [h1, h2, h3] at hd
  simp only [List.cons_append, List.nil_append] at hd
  injection hd with ha hd
  injection hd with hb hd
  exact absurd hb (by decide)

/-- No `Churn_Reason` indicator name collides with the label column `Churn`. -/
theorem churnReason_ne_churn (v : String) :
    ("Churn_Reason" ++ "_" ++ v) ≠ "Churn" := by
  intro h
  have hlen := congrArg String.length h
  rw [String.length_append, String.length_append] at hlen
  have h1 : ("Churn_Reason" : String).length = 12 := rfl
  have h2 : ("_" : String).length = 1 := rfl
  have h3 : ("Churn" : String).length = 5 := rfl
  rw [h1, h2, h3] at hlen
  omega

/-- An indicator column generated for an encoded column survives the
identifier drop and the `Churn` split whenever its name avoids the three
dropped names, so it reaches the predictor matrix `X`. -/
theorem dummy_mem_featuresX (df : DataFrame) (c v : String)
    (hc : c ∈ categoricalColumns)
    (hv : v ∈ (sortedCategories (addChurn (dropna df)) c).tail)
    (h1 : (c ++ "_" ++ v) ≠ "Customer_ID")
    (h2 : (c ++ "_" ++ v) ≠ "Customer_Status")
    (h3 : (c ++ "_" ++ v) ≠ "Churn") :
    (c ++ "_" ++ v) ∈ (featuresX df).cols := by
  have hmem : (c ++ "_" ++ v) ∈ dummyColNames (addChurn (dropna df)) c :=
    List.mem_map_of_mem _ hv
  have hgd : (c ++ "_" ++ v) ∈ (getDummies (addChurn (dropna df)) categoricalColumns).cols :=
    List.mem_append_right _ (List.mem_flatMap.mpr ⟨c, hc, hmem⟩)
  show (c ++ "_" ++ v) ∈ (preprocess df).cols.filter _
  refine List.mem_filter.mpr ⟨?_, ?_⟩
  · show (c ++ "_" ++ v) ∈
      (getDummies (addChurn (dropna df)) categoricalColumns).cols.filter _
    refine List.mem_filter.mpr ⟨hgd, ?_⟩
    simp [idColumnsDropped, h1, h2]
  · simp [h3]

/-! Claim theorems. -/

/-- C1: for every input row that survives the missing-value filter, the
derived `Churn` label (the appended last cell) is `1` exactly when the
row's `Customer_Status` cell is `'Churned'`, and `0` otherwise. -/
theorem churn_label_iff_status (df : DataFrame) (r : List Cell)
    (h : r ∈ (dropna df).rows) :
    addChurnRow df.cols r ∈ (addChurn (dropna df)).rows ∧
    ((addChurnRow df.cols r).getLast? = some (Cell.num 1) ↔
      cellOf df.cols r "Customer_Status" = Cell.str "Churned") ∧
    (cellOf df.cols r "Customer_Status" ≠ Cell.str "Churned" →
      (addChurnRow df.cols r).getLast? = some (Cell.num 0)) := by
  refine ⟨List.mem_map_of_mem _ h, ?_, ?_⟩
  · rw [addChurnRow, List.getLast?_concat, churnLabel]
    constructor
    · intro h1
      by_contra hne
      rw [if_neg hne] at h1
      exact absurd (Option.some.inj h1) (by decide)
    · intro he
      rw [if_pos he]
  · intro hne
    rw [addChurnRow, List.getLast?_concat, churnLabel, if_neg hne]

/-- Witness for C1 at a concrete dataframe and row. -/
theorem churn_label_iff_status_witness :
    addChurnRow exDf.cols exRow ∈ (addChurn (dropna exDf)).rows ∧
    ((addChurnRow exDf.cols exRow).getLast? = some (Cell.num 1) ↔
      cellOf exDf.cols exRow "Customer_Status" = Cell.str "Churned") ∧
    (cellOf exDf.cols exRow "Customer_Status" ≠ Cell.str "Churned" →
      (addChurnRow exDf.cols exRow).getLast? = some (Cell.num 0)) :=
  churn_label_iff_status exDf exRow (by decide)

/-- C2 (code bug): the loader does not close the connection on every exit
path.  When `pd.read_sql` raises, the exception propagates past
`conn.close()` and the cell terminates with the connection still open; the
connection is closed only on the success path. -/
theorem conn_left_open_on_read_error :
    (dataLoader (Except.error "connection failure")).1.connOpen = true ∧
    (dataLoader (Except.error "connection failure")).2 = some "connection failure" ∧
    (dataLoader (Except.ok { cols := [], rows := [] })).1.connOpen = false ∧
    (∀ d, (dataLoader (Except.ok d)).1.connOpen = false) ∧
    (∀ e, (dataLoader (Except.error e)).1.connOpen = true) :=
  ⟨rfl, rfl, rfl, fun _ => rfl, fun _ => rfl⟩

/-- C3: for equal-length, non-empty label lists the accuracy is the number
of positions where prediction equals truth divided by the number of rows,
and it lies in the closed interval from 0 to 1. -/
theorem accuracy_in_unit_interval [DecidableEq α] (yTrue yPred : List α)
    (hlen : yTrue.length = yPred.length) (hne : yTrue ≠ []) :
    0 ≤ accuracy_score yTrue yPred ∧ accuracy_score yTrue yPred ≤ 1 ∧
    accuracy_score yTrue yPred = (matchCount yTrue yPred : ℚ) / (yTrue.length : ℚ) ∧
    matchCount yTrue yPred ≤ yTrue.length := by
  have hn : 0 < yTrue.length := List.length_pos.mpr hne
  have hcount : matchCount yTrue yPred ≤ yTrue.length := by
    calc matchCount yTrue yPred ≤ (yTrue.zip yPred).length := List.countP_le_length _
    _ = min yTrue.length yPred.length := List.length_zip yTrue yPred
    _ = yTrue.length := by omega
  refine ⟨?_, ?_, rfl, hcount⟩
  · exact div_nonneg (Nat.cast_nonneg _) (Nat.cast_nonneg _)
  · rw [accuracy_score, div_le_one (by exact_mod_cast hn)]
    exact_mod_cast hcount

/-- Witness for C3 at concrete label lists. -/
theorem accuracy_in_unit_interval_witness :
    0 ≤ accuracy_score [1, 0, 1] [1, 1, 1] ∧ accuracy_score [1, 0, 1] [1, 1, 1] ≤ 1 ∧
    accuracy_score [1, 0, 1] [1, 1, 1] =
      (matchCount [1, 0, 1] [1, 1, 1] : ℚ) / (([1, 0, 1] : List ℕ).length : ℚ) ∧
    matchCount [1, 0, 1] [1, 1, 1] ≤ ([1, 0, 1] : List ℕ).length :=
  accuracy_in_unit_interval [1, 0, 1] [1, 1, 1] (by decide) (by decide)

/-- C6: the preprocessing stage is a pure function of its input dataframe:
identical inputs give identical filtered frames, feature matrices and
label vectors. -/
theorem preprocess_deterministic (df₁ df₂ : DataFrame) (h : df₁ = df₂) :
    preprocess df₁ = preprocess df₂ ∧ featuresX df₁ = featuresX df₂ ∧
    labelsY df₁ = labelsY df₂ := by
  rw [h]
  exact ⟨rfl, rfl, rfl⟩

/-- Witness for C6 at a concrete dataframe. -/
theorem preprocess_deterministic_witness :
    preprocess exDf = preprocess exDf ∧ featuresX exDf = featuresX exDf ∧
    labelsY exDf = labelsY exDf :=
  preprocess_deterministic exDf exDf rfl

/-- C10: the missing-value filter inspects every column — a row survives
`dropna` exactly when it is an input row with no `null` in any position —
and it runs before label derivation and pruning: every surviving row (and
no other) contributes exactly one row to the preprocessed output. -/
theorem dropna_covers_all_columns (df : DataFrame) (r : List Cell) :
    (r ∈ (dropna df).rows ↔ r ∈ df.rows ∧ Cell.null ∉ r) ∧
    (dropna df).cols = df.cols ∧
    (preprocess df).rows.length = (dropna df).rows.length := by
  refine ⟨?_, rfl, ?_⟩
  · rw [dropna]
    simp [List.mem_filter]
  · simp [preprocess, dropCols, getDummies, addChurn]

/-- The solver loop never exceeds its fuel. -/
theorem solverLoop_le (step : β → β) (converged : β → Bool) :
    ∀ (fuel : Nat) (w : β), (solverLoop step converged fuel w).2 ≤ fuel := by
  intro fuel
  induction fuel with
  | zero => intro w; exact le_rfl
  | succ n ih =>
    intro w
    rw [solverLoop]
    by_cases hc : converged w = true
    · rw [if_pos hc]; exact Nat.zero_le _
    · rw [if_neg hc]
      show (solverLoop step converged n (step w)).2 + 1 ≤ n + 1
      exact Nat.succ_le_succ (ih (step w))

/-- C4: for every filtered row list, the split under the seed's shuffle
permutation gives disjoint train/test index sets, the two partitions
together are a permutation of the full row list, and their sizes sum to
the total row count. -/
theorem split_is_partition (rows : List α) (perm : List Nat)
    (h : List.Perm perm (List.range rows.length)) :
    (∀ i, i ∈ perm.take (testCount rows.length) →
      i ∉ perm.drop (testCount rows.length)) ∧
    List.Perm ((train_test_split rows perm).1 ++ (train_test_split rows perm).2) rows ∧
    (train_test_split rows perm).1.length + (train_test_split rows perm).2.length =
      rows.length := by
  have hnd : perm.Nodup := h.symm.nodup (List.nodup_range _)
  have hunion : List.Perm
      ((train_test_split rows perm).1 ++ (train_test_split rows perm).2) rows := by
    rw [train_test_split]
    show List.Perm (selectRows rows _ ++ selectRows rows _) rows
    rw [selectRows, selectRows, ← List.filterMap_append]
    have hp : List.Perm
        (perm.drop (testCount rows.length) ++ perm.take (testCount rows.length))
        (List.range rows.length) := by
      refine List.Perm.trans List.perm_append_comm ?_
      rw [List.take_append_drop]
      exact h
    have hsel := hp.filterMap (fun i => rows.get? i)
    have hr : List.filterMap (fun i => rows.get? i) (List.range rows.length) = rows :=
      selectRows_range rows
    rw [hr] at hsel
    exact hsel
  refine ⟨?_, hunion, ?_⟩
  · intro i hi hj
    exact List.disjoint_take_drop hnd le_rfl hi hj
  · have hl := hunion.length_eq
    rw [List.length_append] at hl
    exact hl

/-- Witness for C4 at a concrete row list and shuffle. -/
theorem split_is_partition_witness :
    (∀ i, i ∈ ([2, 0, 1] : List Nat).take (testCount ([10, 20, 30] : List ℕ).length) →
      i ∉ ([2, 0, 1] : List Nat).drop (testCount ([10, 20, 30] : List ℕ).length)) ∧
    List.Perm ((train_test_split ([10, 20, 30] : List ℕ) [2, 0, 1]).1 ++
      (train_test_split ([10, 20, 30] : List ℕ) [2, 0, 1]).2) [10, 20, 30] ∧
    (train_test_split ([10, 20, 30] : List ℕ) [2, 0, 1]).1.length +
      (train_test_split ([10, 20, 30] : List ℕ) [2, 0, 1]).2.length =
      ([10, 20, 30] : List ℕ).length :=
  split_is_partition [10, 20, 30] [2, 0, 1] (by decide)

/-- C5: one-hot expansion with `drop_first=True` emits no indicator column
for the first category of an encoded column, while every indicator it does
emit reaches the encoded frame's column list. -/
theorem drop_first_category_absent (df : DataFrame) (c first : String)
    (hc : c ∈ categoricalColumns)
    (hfirst : (sortedCategories df c).head? = some first) :
    (c ++ "_" ++ first) ∉ dummyColNames df c ∧
    ∀ x ∈ dummyColNames df c, x ∈ (getDummies df categoricalColumns).cols := by
  constructor
  · intro hmem
    obtain ⟨v, hv, heq⟩ := List.mem_map.mp hmem
    have hveq : v = first := str_append_cancel (c ++ "_") v first heq
    subst hveq
    cases hcat : sortedCategories df c with
    | nil =>
      rw [hcat] at hfirst
      exact absurd hfirst (by simp)
    | cons a t =>
      have hnd := sortedCategories_nodup df c
      rw [hcat] at hfirst hv hnd
      have ha : a = v := by simpa using hfirst
      exact (List.nodup_cons.mp hnd).1 (ha ▸ hv)
  · intro x hx
    exact List.mem_append_right _ (List.mem_flatMap.mpr ⟨c, hc, hx⟩)

/-- Witness for C5 at a concrete dataframe and encoded column. -/
theorem drop_first_category_absent_witness :
    ("Gender" ++ "_" ++ "Female") ∉ dummyColNames exDf "Gender" ∧
    ∀ x ∈ dummyColNames exDf "Gender", x ∈ (getDummies exDf categoricalColumns).cols :=
  drop_first_category_absent exDf "Gender" "Female" (by decide) (by decide)

/-- C7: the split takes `ceil(0.3 * n)` rows for the test partition (the
test share is 30% up to the rounding of `0.3 * n`) and the rest for
training; the whole stage is a function of the rows and the seed's shuffle
permutation; and the solver performs at most `max_iter` iterations. -/
theorem split_ratio_and_bounded_solver (rows : List α) (perm : List Nat)
    (h : List.Perm perm (List.range rows.length)) :
    (train_test_split rows perm).2.length = testCount rows.length ∧
    (train_test_split rows perm).1.length = rows.length - testCount rows.length ∧
    3 * rows.length ≤ 10 * testCount rows.length ∧
    10 * testCount rows.length < 3 * rows.length + 10 ∧
    (∀ (rows2 : List α) (perm2 : List Nat), rows2 = rows → perm2 = perm →
      train_test_split rows2 perm2 = train_test_split rows perm) ∧
    (∀ (step : β → β) (converged : β → Bool) (w0 : β),
      (fitSolver step converged w0).2 ≤ max_iter) := by
  have hlenp : perm.length = rows.length := by
    have hl := h.length_eq
    rwa [List.length_range] at hl
  have hvalid : ∀ i ∈ perm, i < rows.length := fun i hi =>
    List.mem_range.mp (h.mem_iff.mp hi)
  refine ⟨?_, ?_, ?_, ?_, ?_, ?_⟩
  · rw [train_test_split]
    show (selectRows rows (perm.take _)).length = _
    rw [selectRows_length_of_valid rows _
        (fun i hi => hvalid i (List.mem_of_mem_take hi)),
      List.length_take, hlenp]
    rw [testCount]
    omega
  · rw [train_test_split]
    show (selectRows rows (perm.drop _)).length = _
    rw [selectRows_length_of_valid rows _
        (fun i hi => hvalid i (List.mem_of_mem_drop hi)),
      List.length_drop, hlenp]
  · rw [testCount]; omega
  · rw [testCount]; omega
  · intro rows2 perm2 h1 h2
    rw [h1, h2]
  · intro step converged w0
    exact solverLoop_le step converged max_iter w0

/-- Witness for C7 at a concrete row list and shuffle. -/
theorem split_ratio_and_bounded_solver_witness :
    (train_test_split ([10, 20, 30] : List ℕ) [2, 0, 1]).2.length =
      testCount ([10, 20, 30] : List ℕ).length ∧
    (train_test_split ([10, 20, 30] : List ℕ) [2, 0, 1]).1.length =
      ([10, 20, 30] : List ℕ).length - testCount ([10, 20, 30] : List ℕ).length ∧
    3 * ([10, 20, 30] : List ℕ).length ≤ 10 * testCount ([10, 20, 30] : List ℕ).length ∧
    10 * testCount ([10, 20, 30] : List ℕ).length <
      3 * ([10, 20, 30] : List ℕ).length + 10 ∧
    (∀ (rows2 : List ℕ) (perm2 : List Nat), rows2 = [10, 20, 30] → perm2 = [2, 0, 1] →
      train_test_split rows2 perm2 = train_test_split ([10, 20, 30] : List ℕ) [2, 0, 1]) ∧
    (∀ (step : ℕ → ℕ) (converged : ℕ → Bool) (w0 : ℕ),
      (fitSolver step converged w0).2 ≤ max_iter) :=
  split_ratio_and_bounded_solver [10, 20, 30] [2, 0, 1] (by decide)

/-- C8: the predictor matrix and the label vector have the same row count,
and splitting both with the same shuffle keeps the counts aligned in the
train and in the test partition. -/
theorem features_labels_aligned (df : DataFrame) (perm : List Nat) :
    (featuresX df).rows.length = (labelsY df).length ∧
    (train_test_split (featuresX df).rows perm).1.length =
      (train_test_split (labelsY df) perm).1.length ∧
    (train_test_split (featuresX df).rows perm).2.length =
      (train_test_split (labelsY df) perm).2.length := by
  have hbase : (featuresX df).rows.length = (labelsY df).length := by
    rw [featuresX, labelsY, dropCols]
    simp
  refine ⟨hbase, ?_, ?_⟩
  · rw [train_test_split, train_test_split]
    show (selectRows (featuresX df).rows
        (perm.drop (testCount (featuresX df).rows.length))).length =
      (selectRows (labelsY df) (perm.drop (testCount (labelsY df).length))).length
    rw [hbase]
    exact selectRows_length_congr _ _ hbase _
  · rw [train_test_split, train_test_split]
    show (selectRows (featuresX df).rows
        (perm.take (testCount (featuresX df).rows.length))).length =
      (selectRows (labelsY df) (perm.take (testCount (labelsY df).length))).length
    rw [hbase]
    exact selectRows_length_congr _ _ hbase _

/-- C9 (amended): `Churn_Category` and `Churn_Reason` are in the encoded
column list and not in the dropped identifier list, and whenever one of
them takes at least two distinct values in the filtered data, the
indicator columns of its non-first categories reach the predictor matrix. -/
theorem churn_outcome_cols_in_features (df : DataFrame) (v w : String)
    (hv : v ∈ (sortedCategories (addChurn (dropna df)) "Churn_Category").tail)
    (hw : w ∈ (sortedCategories (addChurn (dropna df)) "Churn_Reason").tail) :
    "Churn_Category" ∈ categoricalColumns ∧ "Churn_Reason" ∈ categoricalColumns ∧
    "Churn_Category" ∉ idColumnsDropped ∧ "Churn_Reason" ∉ idColumnsDropped ∧
    ("Churn_Category" ++ "_" ++ v) ∈ (featuresX df).cols ∧
    ("Churn_Reason" ++ "_" ++ w) ∈ (featuresX df).cols := by
  refine ⟨by decide, by decide, by decide, by decide, ?_, ?_⟩
  · exact dummy_mem_featuresX df "Churn_Category" v (by decide) hv
      (churnCat_ne_customerID v) (churnCat_ne_customerStatus v) (churnCat_ne_churn v)
  · exact dummy_mem_featuresX df "Churn_Reason" w (by decide) hw
      (churnReason_ne_customerID w) (churnReason_ne_customerStatus w)
      (churnReason_ne_churn w)

/-- Witness for the amended C9 at a concrete dataframe. -/
theorem churn_outcome_cols_in_features_witness :
    "Churn_Category" ∈ categoricalColumns ∧ "Churn_Reason" ∈ categoricalColumns ∧
    "Churn_Category" ∉ idColumnsDropped ∧ "Churn_Reason" ∉ idColumnsDropped ∧
    ("Churn_Category" ++ "_" ++ "Price") ∈ (featuresX exDf).cols ∧
    ("Churn_Reason" ++ "_" ++ "Too expensive") ∈ (featuresX exDf).cols :=
  churn_outcome_cols_in_features exDf "Price" "Too expensive" (by decide) (by decide)

/-- C9 counterexample: on a complete single-row dataset every categorical
column has one category, `drop_first=True` drops it, and no indicator
column derived from `Churn_Category` exists in the predictor matrix. -/
theorem churn_outcome_cols_counterexample :
    dummyColNames (addChurn (dropna exDfOneRow)) "Churn_Category" = [] ∧
    ¬ ∃ name, name ∈ dummyColNames (addChurn (dropna exDfOneRow)) "Churn_Category" ∧
      name ∈ (featuresX exDfOneRow).cols := by
  have h0 : dummyColNames (addChurn (dropna exDfOneRow)) "Churn_Category" = [] := by
    decide
  refine ⟨h0, ?_⟩
  rintro ⟨name, hname, hcols⟩
  rw [h0] at hname
  exact absurd hname (List.not_mem_nil name)
